import Mathlib

/-!
Verification development for the CDI word-to-taxonomy processing pipeline
(`process_cdi_data.py`).  The Python functions are shallowly embedded as
executable Lean definitions:

* DataFrame cells are `Option String` / `Option Int` (`none` models a
  null/NaN cell).
* A wide-format table is a column list plus rows of (column, cell)
  association lists; a long-format table records, per metadata column,
  whether the column is present at all (pandas column existence) next to
  per-row nullable values.
* `pandas.groupby` is embedded as: drop the rows whose (tuple) key has a
  null component (the pandas `dropna=True` default), then form one group
  per distinct key, each group keeping the original row order.  The
  enumeration order of the groups themselves (pandas sorts keys) is
  abstracted: no theorem below depends on inter-group order.
* `json.dumps`/decoding round trips are stated on a JSON value tree
  (`Json` below); serialising a tree to text is injective, so the
  string-level round trip is faithfully represented at the tree level.
-/

namespace CDI

/-- `str.lower()` on a Python string (character-wise lowercasing). -/
def strLower (s : String) : String := String.mk (s.data.map Char.toLower)

/-- `str.replace(a, b)` for single-character `a`, `b`. -/
def replaceChar (a b : Char) (s : String) : String :=
  String.mk (s.data.map (fun c => if c = a then b else c))

/-- `str.strip()`: remove leading and trailing whitespace. -/
def strip (s : String) : String :=
  String.mk (((s.data.dropWhile Char.isWhitespace).reverse.dropWhile
    Char.isWhitespace).reverse)

/-- Core of `normalize_word`: `str(word).lower().replace(' ', '_').replace('-', '_')`. -/
def normalizeLabel (s : String) : String :=
  replaceChar '-' '_' (replaceChar ' ' '_' (strLower s))

/-- `normalize_word` from the source: `None` in, `None` out, otherwise normalise. -/
def normalize_word : Option String → Option String
  | none => none
  | some w => some (normalizeLabel w)

/-- `normalized_col.split('.')[0] if '.' in normalized_col else normalized_col`:
in both branches this is the longest prefix not containing `'.'`. -/
def base_word (s : String) : String :=
  String.mk (s.data.takeWhile (fun c => c ≠ '.'))

/-- One taxonomy entry: the values stored by `load_section_mapping`
(`section_number`, `section_title`, `cdi_code` read from a CSV, hence
nullable). -/
structure SectionInfo where
  section_number : Option Int
  section_title : Option String
  cdi_code : Option Int
deriving DecidableEq

/-- The in-memory `word_to_section` mapping, abstracted as a lookup
function (Python dict lookup via `.get`). -/
def Taxonomy : Type := String → Option SectionInfo

/-- `word_to_section.get(base_word)` for a raw column label: normalise the
label, truncate at the first dot, then look the base word up. -/
def resolveColumn (tax : Taxonomy) (c : String) : Option SectionInfo :=
  tax (base_word (normalizeLabel c))

/-- The metadata column names (`metadata_cols` in the source). -/
def metadata_cols : List String := ["subject_id", "age", "sex", "study_name"]

/-- The fixed exclusion list of `process_cdi_file` (lines 54-88), verbatim. -/
def exclude_cols : List String := [
  "opt_out", "local_lab_id", "repeat_num", "administration_id", "link", "completed",
  "completedBackgroundInfo", "due_date", "last_modified", "created_date", "completed_date",
  "source_id", "event_id", "country", "zip_code", "birth_order", "birth_weight_lb",
  "birth_weight_kg", "multi_birth_boolean", "multi_birth", "sibling_boolean", "sibling_count",
  "sibling_data", "born_on_due_date", "early_or_late", "due_date_diff", "form_filler",
  "form_filler_other", "primary_caregiver", "primary_caregiver_other", "mother_yob",
  "mother_education", "secondary_caregiver", "secondary_caregiver_other", "father_yob",
  "father_education", "annual_income", "child_hispanic_latino", "child_ethnicity",
  "caregiver_info", "caregiver_other", "other_languages_boolean", "other_languages",
  "language_from", "language_days_per_week", "language_hours_per_day",
  "ear_infections_boolean", "ear_infections", "hearing_loss_boolean", "hearing_loss",
  "vision_problems_boolean", "vision_problems", "illnesses_boolean", "illnesses",
  "services_boolean", "services", "worried_boolean", "worried", "learning_disability_boolean",
  "learning_disability", "children_comforted", "show_respect", "close_bonds",
  "parents_help_learn", "play_learning", "explore_experiment", "do_as_told", "read_at_home",
  "teach_alphbet", "rhyming_games", "read_for_pleasure", "child_asks_for_reading",
  "child_self_reads", "child_asks_words_say", "place_of_residence",
  "primary_caregiver_occupation", "primary_caregiver_occupation_description",
  "secondary_caregiver_occupation", "secondary_caregiver_occupation_description",
  "kindergarten_since_when", "kindergarten_hpd", "kindergarten_dpw", "benchmark age",
  "benchmark cohort age", "Total Produced", "Total Produced Percentile-sex",
  "Total Produced Percentile-both", "How Children Use Words", "Word Endings 1",
  "Word Endings 1 Percentile-sex", "Word Endings 1 Percentile-both", "Word Forms 1 Nouns",
  "Word Forms 1 Nouns Percentile-sex", "Word Forms 1 Nouns Percentile-both",
  "Word Forms 1 Verbs", "Word Forms 2 Nouns", "Word Forms 2 Verbs", "Combining",
  "Combining % yes answers at this age and sex", "Complexity", "Complexity Percentile-sex",
  "Complexity Percentile-both", "Combination Example 1", "Combination Example 2",
  "Combination Example 3", "usepast", "usefuture", "miss_produce", "miss_comp",
  "usepossessive", "splural", "spossess", "ing", "ed", "combine"]

/-- The exclusion list duplicated inside `calculate_key_metrics`
(lines 293-327), verbatim. -/
def exclude_cols_metrics : List String := [
  "opt_out", "local_lab_id", "repeat_num", "administration_id", "link", "completed",
  "completedBackgroundInfo", "due_date", "last_modified", "created_date", "completed_date",
  "source_id", "event_id", "country", "zip_code", "birth_order", "birth_weight_lb",
  "birth_weight_kg", "multi_birth_boolean", "multi_birth", "sibling_boolean", "sibling_count",
  "sibling_data", "born_on_due_date", "early_or_late", "due_date_diff", "form_filler",
  "form_filler_other", "primary_caregiver", "primary_caregiver_other", "mother_yob",
  "mother_education", "secondary_caregiver", "secondary_caregiver_other", "father_yob",
  "father_education", "annual_income", "child_hispanic_latino", "child_ethnicity",
  "caregiver_info", "caregiver_other", "other_languages_boolean", "other_languages",
  "language_from", "language_days_per_week", "language_hours_per_day",
  "ear_infections_boolean", "ear_infections", "hearing_loss_boolean", "hearing_loss",
  "vision_problems_boolean", "vision_problems", "illnesses_boolean", "illnesses",
  "services_boolean", "services", "worried_boolean", "worried", "learning_disability_boolean",
  "learning_disability", "children_comforted", "show_respect", "close_bonds",
  "parents_help_learn", "play_learning", "explore_experiment", "do_as_told", "read_at_home",
  "teach_alphbet", "rhyming_games", "read_for_pleasure", "child_asks_for_reading",
  "child_self_reads", "child_asks_words_say", "place_of_residence",
  "primary_caregiver_occupation", "primary_caregiver_occupation_description",
  "secondary_caregiver_occupation", "secondary_caregiver_occupation_description",
  "kindergarten_since_when", "kindergarten_hpd", "kindergarten_dpw", "benchmark age",
  "benchmark cohort age", "Total Produced", "Total Produced Percentile-sex",
  "Total Produced Percentile-both", "How Children Use Words", "Word Endings 1",
  "Word Endings 1 Percentile-sex", "Word Endings 1 Percentile-both", "Word Forms 1 Nouns",
  "Word Forms 1 Nouns Percentile-sex", "Word Forms 1 Nouns Percentile-both",
  "Word Forms 1 Verbs", "Word Forms 2 Nouns", "Word Forms 2 Verbs", "Combining",
  "Combining % yes answers at this age and sex", "Complexity", "Complexity Percentile-sex",
  "Complexity Percentile-both", "Combination Example 1", "Combination Example 2",
  "Combination Example 3", "usepast", "usefuture", "miss_produce", "miss_comp",
  "usepossessive", "splural", "spossess", "ing", "ed", "combine"]

/-- `available_metadata = [col for col in metadata_cols if col in df.columns]`. -/
def available_metadata (cols : List String) : List String :=
  metadata_cols.filter (fun c => decide (c ∈ cols))

/-- Word-column classification of the transformer pass (lines 90-91):
`word_columns = [col for col in df.columns if col not in set(exclude_cols + available_metadata)]`. -/
def word_columns (cols : List String) : List String :=
  cols.filter (fun c => decide (c ∉ exclude_cols ++ available_metadata cols))

/-- Word-column classification of the metadata-payload pass inside
`calculate_key_metrics` (lines 330-331): the exclusion set there is
`set(exclude_cols + metadata_cols)` with the full metadata list. -/
def word_columns_metrics (cols : List String) : List String :=
  cols.filter (fun c => decide (c ∉ exclude_cols_metrics ++ metadata_cols))

/-- One row of the wide input table: column name to nullable cell value. -/
structure WideRow where
  cells : List (String × Option String)
deriving DecidableEq

/-- `row[col]` / `row.get(col)`: `none` both for a missing column and a null cell. -/
def WideRow.cell (r : WideRow) (c : String) : Option String :=
  match r.cells.lookup c with
  | some v => v
  | none => none

/-- The wide input table: its column list and its rows. -/
structure WideTable where
  cols : List String
  rows : List WideRow
deriving DecidableEq

/-- Produced-marker test of line 107:
`pd.notna(value) and str(value).strip().lower() == 'produces'`. -/
def producedCell : Option String → Bool
  | none => false
  | some s => decide (strLower (strip s) = "produces")

/-- One long-format produced-word record (a row of `df_result`).  The
metadata fields are nullable; whether the corresponding column exists at
all is tracked by the enclosing `LongTable`. -/
structure LongRec where
  subject_id : Option String
  age : Option String
  sex : Option String
  study_name : Option String
  word : String
  word_column : String
  section_number : Option Int
  section_title : Option String
  cdi_code : Option Int
deriving DecidableEq

/-- The long-format table: per metadata column a presence flag (pandas
column existence) plus the records. -/
structure LongTable where
  hasSubjectId : Bool
  hasAge : Bool
  hasSex : Bool
  hasStudyName : Bool
  rows : List LongRec
deriving DecidableEq

/-- The records emitted for one wide row (inner loop of lines 103-127):
for each word column, if the cell carries the produced marker and the
normalised, dot-truncated base word resolves in the taxonomy, emit a
record; otherwise emit nothing. -/
def rowRecords (tax : Taxonomy) (avail : List String) (wcols : List String)
    (r : WideRow) : List LongRec :=
  wcols.filterMap (fun c =>
    if producedCell (r.cell c) then
      match resolveColumn tax c with
      | some si => some {
          subject_id := if "subject_id" ∈ avail then r.cell "subject_id" else none
          age := if "age" ∈ avail then r.cell "age" else none
          sex := if "sex" ∈ avail then r.cell "sex" else none
          study_name := if "study_name" ∈ avail then r.cell "study_name" else none
          word := replaceChar '_' ' ' (base_word (normalizeLabel c))
          word_column := c
          section_number := si.section_number
          section_title := si.section_title
          cdi_code := si.cdi_code }
      | none => none
    else none)

/-- `process_cdi_file` restricted to its pure core: classify the word
columns, scan every row, and collect the long-format records (file I/O
and printing are outside the embedding). -/
def process_cdi_file (tax : Taxonomy) (t : WideTable) : LongTable :=
  let avail := available_metadata t.cols
  let wcols := word_columns t.cols
  { hasSubjectId := decide ("subject_id" ∈ avail)
    hasAge := decide ("age" ∈ avail)
    hasSex := decide ("sex" ∈ avail)
    hasStudyName := decide ("study_name" ∈ avail)
    rows := t.rows.flatMap (rowRecords tax avail wcols) }

/-- The fixed verb sections of the Metrics Calculator: 14 (ADVERBS),
15 (ACTION WORDS), 21 (HELPING VERBS). -/
def verb_sections : List Int := [14, 15, 21]

/-- The pronoun section of the Metrics Calculator. -/
def pronoun_section : Int := 19

/-- The wh-word section of the Metrics Calculator. -/
def wh_words_section : Int := 16

/-- `group['section_number'].isin(verb_sections)`: a null section number
never matches. -/
def isVerbRec (r : LongRec) : Bool :=
  match r.section_number with
  | some n => decide (n ∈ verb_sections)
  | none => false

/-- `group['section_number'] == pronoun_section` (null never matches). -/
def isPronounRec (r : LongRec) : Bool :=
  match r.section_number with
  | some n => decide (n = pronoun_section)
  | none => false

/-- `group['section_number'] == wh_words_section` (null never matches). -/
def isWhRec (r : LongRec) : Bool :=
  match r.section_number with
  | some n => decide (n = wh_words_section)
  | none => false

/-- A record counted in none of the three named categories. -/
def isOtherRec (r : LongRec) : Bool :=
  !(isVerbRec r || isPronounRec r || isWhRec r)

/-- One element of the `words_produced` payload (lines 274-279). -/
structure WordEntry where
  word : String
  section_number : Option Int
  section_title : Option String
  cdi_code : Option Int
deriving DecidableEq

/-- The entry built for one long-format record: `int(...)` on a non-null
section number / cdi code, `None` on a null one. -/
def wordEntryOf (r : LongRec) : WordEntry :=
  { word := r.word
    section_number := r.section_number
    section_title := r.section_title
    cdi_code := r.cdi_code }

/-- `words_list` for one subject group, in group (= long-format) order. -/
def wordsListOf (g : List LongRec) : List WordEntry := g.map wordEntryOf

/-- One Subject Metrics Record (counts and the pre-serialisation
`words_produced` payload; the metadata echo and `parent_info` are not
needed by the claims below, the output column layout is modelled
separately by `metricsFinalColumns`). -/
structure MetricRec where
  total_words : Nat
  verbs_count : Nat
  pronouns_count : Nat
  wh_words_count : Nat
  words_produced : List WordEntry
deriving DecidableEq

/-- The metrics computed for one subject group (lines 256-282). -/
def metricOf (g : List LongRec) : MetricRec :=
  { total_words := g.length
    verbs_count := (g.filter isVerbRec).length
    pronouns_count := (g.filter isPronounRec).length
    wh_words_count := (g.filter isWhRec).length
    words_produced := wordsListOf g }

/-- The subject groups of `calculate_key_metrics` (lines 235-243).  With a
`subject_id` column, `groupby('subject_id')` drops null-keyed rows and
forms one group per distinct id, keeping row order inside each group.
Without one, the code writes `df_long['subject_id'] = df_long.index` and
groups by that: the index values are pairwise distinct, so every row is
its own singleton group, in row order. -/
def metricGroups (t : LongTable) : List (List LongRec) :=
  if t.rows.isEmpty then []
  else if t.hasSubjectId then
    let valid := t.rows.filter (fun r => r.subject_id.isSome)
    ((valid.map (fun r => r.subject_id)).dedup).map
      (fun k => valid.filter (fun r => decide (r.subject_id = k)))
  else
    t.rows.map (fun r => [r])

/-- `calculate_key_metrics` restricted to its pure per-group core. -/
def calculate_key_metrics (t : LongTable) : List MetricRec :=
  (metricGroups t).map metricOf

/-- `available_subject_cols` of `calculate_key_metrics` (line 233),
computed from the columns of the incoming `df_long` BEFORE the synthetic
`subject_id` is added. -/
def availableSubjectCols (t : LongTable) : List String :=
  (if t.hasSubjectId then ["subject_id"] else []) ++
  (if t.hasAge then ["age"] else []) ++
  (if t.hasSex then ["sex"] else []) ++
  (if t.hasStudyName then ["study_name"] else [])

/-- The non-metadata output columns of the metrics table. -/
def metricValueCols : List String :=
  ["total_words", "verbs_count", "pronouns_count", "wh_words_count",
   "words_produced", "parent_info"]

/-- The columns of `pd.DataFrame(results)` before the final reorder: the
`subject_info` keys (the available metadata columns, plus `subject_id`
appended by the line-253 fallback when the input had no such column)
followed by the metric keys. -/
def metricsRawColumns (t : LongTable) : List String :=
  availableSubjectCols t ++
  (if t.hasSubjectId then [] else ["subject_id"]) ++
  metricValueCols

/-- The column list of the returned metrics table (lines 361-366): when at
least one group exists, `column_order` filtered to the columns that exist;
for an empty result, an empty frame with no columns. -/
def metricsFinalColumns (t : LongTable) : List String :=
  if (metricGroups t).isEmpty then []
  else (availableSubjectCols t ++ metricValueCols).filter
    (fun c => decide (c ∈ metricsRawColumns t))

/-- A grouping-key component of `create_aggregated_by_section`: a string
or integer cell value. -/
inductive KVal where
  | s (v : String)
  | i (v : Int)
deriving DecidableEq

/-- Turn a list of nullable values into a key: `none` as soon as one
component is null (pandas `groupby` drops such rows). -/
def seqOpt {α : Type} : List (Option α) → Option (List α)
  | [] => some []
  | none :: _ => none
  | some a :: rest => (seqOpt rest).map (fun l => a :: l)

/-- The grouping-key components for one long record: the available subject
metadata columns followed by the section columns (line 185). -/
def aggKeyParts (t : LongTable) (r : LongRec) : List (Option KVal) :=
  (if t.hasSubjectId then [r.subject_id.map KVal.s] else []) ++
  (if t.hasAge then [r.age.map KVal.s] else []) ++
  (if t.hasSex then [r.sex.map KVal.s] else []) ++
  (if t.hasStudyName then [r.study_name.map KVal.s] else []) ++
  [r.section_number.map KVal.i, r.section_title.map KVal.s, r.cdi_code.map KVal.i]

/-- The grouping key of one long record, `none` if any component is null. -/
def aggKey (t : LongTable) (r : LongRec) : Option (List KVal) :=
  seqOpt (aggKeyParts t r)

/-- One Section Aggregate Record: grouping key, word list, word count. -/
structure AggRec where
  key : List KVal
  words : List String
  word_count : Nat
deriving DecidableEq

/-- The rows that survive `groupby`'s null-key dropping, paired with
their grouping key. -/
def aggPairs (t : LongTable) : List (List KVal × LongRec) :=
  t.rows.filterMap (fun r => (aggKey t r).map (fun k => (k, r)))

/-- The word list of the group with key `k`, in row order. -/
def aggWords (t : LongTable) (k : List KVal) : List String :=
  ((aggPairs t).filter (fun p => decide (p.fst = k))).map (fun p => p.snd.word)

/-- `create_aggregated_by_section`: empty in, empty out; otherwise group
the non-null-keyed rows by key, collect each group's words in row order,
and set `word_count` to the length of the collected list (line 194). -/
def create_aggregated_by_section (t : LongTable) : List AggRec :=
  if t.rows.isEmpty then []
  else (((aggPairs t).map Prod.fst).dedup).map (fun k =>
    { key := k, words := aggWords t k, word_count := (aggWords t k).length })

/-- Total of `word_count` over an aggregate table. -/
def sumWordCount (l : List AggRec) : Nat := (l.map AggRec.word_count).sum

/-- JSON value trees, the target of `json.dumps` before text rendering. -/
inductive Json where
  | null
  | str (s : String)
  | num (n : Int)
  | arr (xs : List Json)
  | obj (fs : List (String × Json))

/-- Encode a nullable integer field. -/
def optIntJson : Option Int → Json
  | none => Json.null
  | some n => Json.num n

/-- Encode a nullable string field. -/
def optStrJson : Option String → Json
  | none => Json.null
  | some s => Json.str s

/-- The JSON object serialised for one `words_produced` entry. -/
def encodeEntry (e : WordEntry) : Json :=
  Json.obj [("word", Json.str e.word),
            ("section_number", optIntJson e.section_number),
            ("section_title", optStrJson e.section_title),
            ("cdi_code", optIntJson e.cdi_code)]

/-- The JSON array serialised for a `words_produced` payload. -/
def encodeEntries (l : List WordEntry) : Json := Json.arr (l.map encodeEntry)

/-- Decode a nullable integer field. -/
def decodeOptInt : Json → Option (Option Int)
  | Json.null => some none
  | Json.num n => some (some n)
  | _ => none

/-- Decode a nullable string field. -/
def decodeOptStr : Json → Option (Option String)
  | Json.null => some none
  | Json.str s => some (some s)
  | _ => none

/-- Decode one `words_produced` entry. -/
def decodeEntry : Json → Option WordEntry
  | Json.obj [("word", Json.str w), ("section_number", jn),
              ("section_title", jt), ("cdi_code", jc)] =>
      match decodeOptInt jn, decodeOptStr jt, decodeOptInt jc with
      | some n, some tt, some c =>
          some { word := w, section_number := n, section_title := tt, cdi_code := c }
      | _, _, _ => none
  | _ => none

/-- Decode a `words_produced` payload. -/
def decodeEntries : Json → Option (List WordEntry)
  | Json.arr xs => seqOpt (xs.map decodeEntry)
  | _ => none

/-- A small concrete taxonomy mapping used to exercise the theorems on
concrete inputs. -/
def exTax : Taxonomy := fun w =>
  if w = "dog" then some { section_number := some 5, section_title := some "ANIMALS", cdi_code := some 101 }
  else if w = "cat" then some { section_number := some 5, section_title := some "ANIMALS", cdi_code := some 101 }
  else if w = "run" then some { section_number := some 15, section_title := some "ACTION WORDS", cdi_code := some 200 }
  else if w = "you" then some { section_number := some 19, section_title := some "PRONOUNS", cdi_code := some 210 }
  else if w = "chicken" then some { section_number := some 2, section_title := some "ANIMALS", cdi_code := some 30 }
  else if w = "mommy" then some { section_number := some 17, section_title := some "PEOPLE", cdi_code := some 300 }
  else if w = "ice_cream" then some { section_number := some 1, section_title := some "FOOD", cdi_code := some 40 }
  else none

/-- Concrete long record: subject S1 produced "dog" (section 5). -/
def exRecDog : LongRec :=
  { subject_id := some "S1", age := some "24", sex := none, study_name := none
    word := "dog", word_column := "dog"
    section_number := some 5, section_title := some "ANIMALS", cdi_code := some 101 }

/-- Concrete long record: subject S1 produced "run" (verb section 15). -/
def exRecRun : LongRec :=
  { subject_id := some "S1", age := some "24", sex := none, study_name := none
    word := "run", word_column := "run"
    section_number := some 15, section_title := some "ACTION WORDS", cdi_code := some 200 }

/-- Concrete long record: subject S1 produced "you" (pronoun section 19). -/
def exRecYou : LongRec :=
  { subject_id := some "S1", age := some "24", sex := none, study_name := none
    word := "you", word_column := "you"
    section_number := some 19, section_title := some "PRONOUNS", cdi_code := some 210 }

/-- The single subject group of the concrete metrics table. -/
def exGroup1 : List LongRec := [exRecDog, exRecRun, exRecYou]

/-- Concrete long-format table with a subject_id column and one subject. -/
def exT1 : LongTable :=
  { hasSubjectId := true, hasAge := true, hasSex := false, hasStudyName := false
    rows := exGroup1 }

/-- The Subject Metrics Record computed for the single group of `exT1`. -/
def exMetric1 : MetricRec := metricOf exGroup1

/-- A record of a long table that lacks a subject_id column. -/
def exRecDogNoId : LongRec :=
  { subject_id := none, age := some "24", sex := some "F", study_name := none
    word := "dog", word_column := "dog"
    section_number := some 5, section_title := some "ANIMALS", cdi_code := some 101 }

/-- A second record of the same (single) subject, same metadata. -/
def exRecCatNoId : LongRec :=
  { subject_id := none, age := some "24", sex := some "F", study_name := none
    word := "cat", word_column := "cat"
    section_number := some 5, section_title := some "ANIMALS", cdi_code := some 101 }

/-- A long-format table with no subject_id column whose two records carry
identical subject metadata: the long output of one wide row of a single
subject. -/
def exTblNoId : LongTable :=
  { hasSubjectId := false, hasAge := true, hasSex := true, hasStudyName := false
    rows := [exRecDogNoId, exRecCatNoId] }

/-- A wide row whose "dog" cell reads "not yet" and whose "cat" cell reads
"produces". -/
def exRowNotYet : WideRow :=
  { cells := [("subject_id", some "S1"), ("dog", some "not yet"), ("cat", some "produces")] }

/-- The one record the transformer emits from `exRowNotYet`: the produced
"cat" cell (the "not yet" dog cell emits nothing). -/
def exRecCatOut : LongRec :=
  { subject_id := some "S1", age := none, sex := none, study_name := none
    word := "cat", word_column := "cat"
    section_number := some 5, section_title := some "ANIMALS", cdi_code := some 101 }

/-- Long table for the section-aggregation witness: one subject, two words
in the same section. -/
def exT6 : LongTable :=
  { hasSubjectId := true, hasAge := false, hasSex := false, hasStudyName := false
    rows := [{ exRecDog with age := none }, { exRecCatNoId with subject_id := some "S1", age := none, sex := none }] }

/-- The aggregate row produced for `exT6`. -/
def exAgg6 : AggRec :=
  { key := [KVal.s "S1", KVal.i 5, KVal.s "ANIMALS", KVal.i 101]
    words := ["dog", "cat"], word_count := 2 }

/-- A wide table holding one subject who produced "zebra" (not in the
taxonomy) and "dog" (in the taxonomy). -/
def exWT : WideTable :=
  { cols := ["subject_id", "zebra", "dog"]
    rows := [{ cells := [("subject_id", some "S1"), ("zebra", some "produces"), ("dog", some "produces")] }] }

/-- The single record `process_cdi_file exTax exWT` emits: the resolvable
"dog"; the unmapped "zebra" is dropped. -/
def exProcDogRec : LongRec :=
  { subject_id := some "S1", age := none, sex := none, study_name := none
    word := "dog", word_column := "dog"
    section_number := some 5, section_title := some "ANIMALS", cdi_code := some 101 }

/-- A record whose subject_id is null: its aggregation grouping key is
null when the table has a subject_id column. -/
def exRecNullSubj : LongRec :=
  { subject_id := none, age := none, sex := none, study_name := none
    word := "run", word_column := "run"
    section_number := some 15, section_title := some "ACTION WORDS", cdi_code := some 200 }

/-- Long table mixing one fully-keyed record and one null-keyed record. -/
def exT9 : LongTable :=
  { hasSubjectId := true, hasAge := false, hasSex := false, hasStudyName := false
    rows := [{ exRecDog with age := none }, exRecNullSubj] }

/-- The three category predicates are pairwise exclusive: a verb-section
record is neither a pronoun nor a wh-word record, and a pronoun record is
not a wh-word record. -/
theorem catFlags (r : LongRec) :
    (isVerbRec r = true → isPronounRec r = false ∧ isWhRec r = false) ∧
    (isPronounRec r = true → isWhRec r = false) := by
  rcases r with ⟨_, _, _, _, _, _, sn, _, _⟩
  rcases sn with _ | n
  · simp [isVerbRec, isPronounRec, isWhRec]
  · simp only [isVerbRec, isPronounRec, isWhRec, verb_sections, pronoun_section,
      wh_words_section, List.mem_cons, List.not_mem_nil, or_false,
      decide_eq_true_eq, decide_eq_false_iff_not]
    omega

/-- Every record of a group falls in exactly one of the four buckets, so
the bucket sizes add up to the group size. -/
theorem length_partition (g : List LongRec) :
    g.length = (g.filter isVerbRec).length + (g.filter isPronounRec).length +
      (g.filter isWhRec).length + (g.filter isOtherRec).length := by
  induction g with
  | nil => simp
  | cons a l ih =>
    by_cases hv : isVerbRec a = true
    · have h1 := (catFlags a).1 hv
      simp only [List.filter_cons, hv, h1.1, h1.2, isOtherRec, Bool.true_or,
        Bool.not_true, if_true, if_false, Bool.false_eq_true, List.length_cons, ih]
      omega
    · rw [Bool.not_eq_true] at hv
      by_cases hp : isPronounRec a = true
      · have h2 := (catFlags a).2 hp
        simp only [List.filter_cons, hv, hp, h2, isOtherRec, Bool.false_or,
          Bool.true_or, Bool.not_true, if_true, if_false, Bool.false_eq_true,
          List.length_cons, ih]
        omega
      · rw [Bool.not_eq_true] at hp
        by_cases hw : isWhRec a = true
        · simp only [List.filter_cons, hv, hp, hw, isOtherRec, Bool.false_or,
            Bool.not_true, if_true, if_false, Bool.false_eq_true,
            List.length_cons, ih]
          omega
        · rw [Bool.not_eq_true] at hw
          simp only [List.filter_cons, hv, hp, hw, isOtherRec, Bool.false_or,
            Bool.not_false, if_true, if_false, Bool.false_eq_true,
            List.length_cons, ih]
          omega

/-- Characterisation of an emitted long record: it stems from a word
column of the scanned list, its cell carried the produced marker, and its
section fields are exactly the resolved taxonomy entry. -/
theorem rowRecords_spec (tax : Taxonomy) (avail wcols : List String) (r : WideRow)
    (rec : LongRec) (h : rec ∈ rowRecords tax avail wcols r) :
    rec.word_column ∈ wcols ∧
    producedCell (r.cell rec.word_column) = true ∧
    resolveColumn tax rec.word_column =
      some ⟨rec.section_number, rec.section_title, rec.cdi_code⟩ := by
  obtain ⟨c, hc, hf⟩ := List.mem_filterMap.mp h
  by_cases hpc : producedCell (r.cell c) = true
  · rcases hsi : resolveColumn tax c with _ | ⟨sn, st, cc⟩
    · simp [hpc, hsi] at hf
    · simp only [hpc, hsi, if_true] at hf
      injection hf with hf
      subst hf
      exact ⟨hc, hpc, hsi⟩
  · rw [Bool.not_eq_true] at hpc
    simp [hpc] at hf

/-- Decoding inverts encoding on a single payload entry. -/
theorem decodeEntry_encodeEntry (e : WordEntry) :
    decodeEntry (encodeEntry e) = some e := by
  rcases e with ⟨w, _ | n, _ | tt, _ | c⟩ <;> rfl

/-- Decoding inverts encoding on a whole payload. -/
theorem decodeEntries_encodeEntries (l : List WordEntry) :
    decodeEntries (encodeEntries l) = some l := by
  induction l with
  | nil => rfl
  | cons a l ih =>
    simp only [encodeEntries, decodeEntries, List.map_cons, List.map_map] at ih ⊢
    rw [decodeEntry_encodeEntry]
    simp [seqOpt, ih]

/-- Filtering on an equal key picks out as many elements as the key count
of the projected list. -/
theorem length_filter_key {α κ : Type} [DecidableEq κ] (f : α → κ) (l : List α) (k : κ) :
    (l.filter (fun a => decide (f a = k))).length = (l.map f).count k := by
  induction l with
  | nil => simp
  | cons a l ih =>
    by_cases h : f a = k
    · simp [List.filter_cons, List.count_cons, h, ih]
    · simp [List.filter_cons, List.count_cons, h, ih]

/-- The group sizes over the distinct keys of a keyed list add up to the
length of the list. -/
theorem sum_group_lengths {α κ : Type} [DecidableEq κ] (l : List (κ × α)) :
    (((l.map Prod.fst).dedup).map
      (fun k => (l.filter (fun p => decide (p.fst = k))).length)).sum = l.length := by
  have h1 : (((l.map Prod.fst).dedup).map
      (fun k => (l.filter (fun p => decide (p.fst = k))).length)) =
      (((l.map Prod.fst).dedup).map (fun k => (l.map Prod.fst).count k)) :=
    List.map_congr_left (fun k _ => length_filter_key Prod.fst l k)
  rw [h1, List.sum_map_count_dedup_eq_length, List.length_map]

/-- A filterMap that maps each element through an optional key keeps
exactly the elements whose key is non-null. -/
theorem length_filterMap_opt {α κ β : Type} (f : α → Option κ) (g : α → κ → β)
    (l : List α) :
    (l.filterMap (fun a => (f a).map (g a))).length =
      (l.filter (fun a => (f a).isSome)).length := by
  induction l with
  | nil => rfl
  | cons a l ih =>
    rcases h : f a with _ | k <;> simp [List.filterMap_cons, List.filter_cons, h, ih]

/-- The string subject_id is listed among the available subject columns
only when the table has a subject_id column. -/
theorem avail_cols_eq (b1 b2 b3 b4 : Bool) (rs : List LongRec) :
    availableSubjectCols ⟨b1, b2, b3, b4, rs⟩ =
      (if b1 then ["subject_id"] else []) ++ (if b2 then ["age"] else []) ++
      (if b3 then ["sex"] else []) ++ (if b4 then ["study_name"] else []) := rfl

theorem subject_id_mem_avail (t : LongTable)
    (h2 : "subject_id" ∈ availableSubjectCols t) : t.hasSubjectId = true := by
  rcases t with ⟨hS, hA, hX, hY, rows⟩
  rw [avail_cols_eq] at h2
  cases hS
  · exfalso
    cases hA <;> cases hX <;> cases hY <;> exact absurd h2 (by decide)
  · rfl

/-- C1: every Subject Metrics Record produced by `calculate_key_metrics`
comes from a subject group; its total_words equals the number of
produced-word records of that group, and equals
verbs_count + pronouns_count + wh_words_count plus the count of records
whose section_number lies in none of {14,15,21}, {19}, {16}; the three
named category predicates are pairwise disjoint on the records of the
group, so no record is counted in more than one category. -/
theorem C1_total_words_partition (t : LongTable) (m : MetricRec)
    (hm : m ∈ calculate_key_metrics t) :
    ∃ g ∈ metricGroups t, m = metricOf g ∧
      m.total_words = g.length ∧
      m.total_words = m.verbs_count + m.pronouns_count + m.wh_words_count +
        (g.filter isOtherRec).length ∧
      ∀ r ∈ g, ¬(isVerbRec r = true ∧ isPronounRec r = true) ∧
        ¬(isVerbRec r = true ∧ isWhRec r = true) ∧
        ¬(isPronounRec r = true ∧ isWhRec r = true) := by
  obtain ⟨g, hg, rfl⟩ := List.mem_map.mp hm
  refine ⟨g, hg, rfl, rfl, ?_, ?_⟩
  · exact length_partition g
  · intro r _
    refine ⟨fun h => ?_, fun h => ?_, fun h => ?_⟩
    · have h1 := ((catFlags r).1 h.1).1
      rw [h.2] at h1
      exact Bool.noConfusion h1
    · have h1 := ((catFlags r).1 h.1).2
      rw [h.2] at h1
      exact Bool.noConfusion h1
    · have h1 := (catFlags r).2 h.1
      rw [h.2] at h1
      exact Bool.noConfusion h1

/-- C1 witness: the partition property instantiated on the concrete
one-subject metrics table `exT1`. -/
theorem C1_witness :
    ∃ g ∈ metricGroups exT1, exMetric1 = metricOf g ∧
      exMetric1.total_words = g.length ∧
      exMetric1.total_words = exMetric1.verbs_count + exMetric1.pronouns_count +
        exMetric1.wh_words_count + (g.filter isOtherRec).length ∧
      ∀ r ∈ g, ¬(isVerbRec r = true ∧ isPronounRec r = true) ∧
        ¬(isVerbRec r = true ∧ isWhRec r = true) ∧
        ¬(isPronounRec r = true ∧ isWhRec r = true) :=
  C1_total_words_partition exT1 exMetric1 (by decide)

/-- C2: for every Subject Metrics Record, decoding the encoded
words_produced payload yields it back exactly; the payload has exactly
total_words entries, in group order, and the section_number of the i-th
entry equals the section_number of the i-th long-format record of the
group of that subject. -/
theorem C2_words_produced_roundtrip (t : LongTable) (m : MetricRec)
    (hm : m ∈ calculate_key_metrics t) :
    ∃ g ∈ metricGroups t, m = metricOf g ∧
      decodeEntries (encodeEntries m.words_produced) = some m.words_produced ∧
      m.words_produced.length = m.total_words ∧
      ∀ (i : Nat) (h1 : i < m.words_produced.length) (h2 : i < g.length),
        (m.words_produced.get ⟨i, h1⟩).section_number =
          (g.get ⟨i, h2⟩).section_number := by
  obtain ⟨g, hg, rfl⟩ := List.mem_map.mp hm
  refine ⟨g, hg, rfl, decodeEntries_encodeEntries _, ?_, ?_⟩
  · simp [metricOf, wordsListOf]
  · intro i h1 h2
    simp [metricOf, wordsListOf, List.get_eq_getElem, List.getElem_map, wordEntryOf]

/-- C2 witness: the round-trip property instantiated on the concrete
one-subject metrics table `exT1`. -/
theorem C2_witness :
    ∃ g ∈ metricGroups exT1, exMetric1 = metricOf g ∧
      decodeEntries (encodeEntries exMetric1.words_produced) =
        some exMetric1.words_produced ∧
      exMetric1.words_produced.length = exMetric1.total_words ∧
      ∀ (i : Nat) (h1 : i < exMetric1.words_produced.length) (h2 : i < g.length),
        (exMetric1.words_produced.get ⟨i, h1⟩).section_number =
          (g.get ⟨i, h2⟩).section_number :=
  C2_words_produced_roundtrip exT1 exMetric1 (by decide)

/-- C3 counterexample: `exTblNoId` has no subject_id column and holds the
two produced-word records of a single subject (identical metadata), yet
`calculate_key_metrics` groups by row position and returns TWO Subject
Metrics Records — one singleton group per long-format row — not the one
record per subject the claim asserts. -/
theorem C3_counterexample :
    exTblNoId.hasSubjectId = false ∧
    exTblNoId.rows.length = 2 ∧
    metricGroups exTblNoId = [[exRecDogNoId], [exRecCatNoId]] ∧
    (calculate_key_metrics exTblNoId).length = 2 ∧
    ¬ (calculate_key_metrics exTblNoId).length = 1 := by decide

/-- C3 amended: when the long-format record set has no subject_id field,
the calculator groups by row position, so every long-format record forms
its own singleton group: it produces one Subject Metrics Record per
long-format record (each with total_words = 1), not one per subject. -/
theorem C3_amended_singleton_groups (t : LongTable) (h : t.hasSubjectId = false) :
    (calculate_key_metrics t).length = t.rows.length ∧
    ∀ m ∈ calculate_key_metrics t, m.total_words = 1 := by
  by_cases he : t.rows.isEmpty = true
  · have h0 : t.rows = [] := List.isEmpty_iff.mp he
    simp [calculate_key_metrics, metricGroups, h0]
  · constructor
    · simp [calculate_key_metrics, metricGroups, he, h]
    · intro m hm
      simp only [calculate_key_metrics, metricGroups, he, h, if_false,
        Bool.false_eq_true, if_neg, List.map_map, List.mem_map] at hm
      obtain ⟨r, _, rfl⟩ := hm
      rfl

/-- C3 amended witness: on the concrete table without a subject_id column
the calculator emits exactly one record per long-format row. -/
theorem C3_amended_witness :
    (calculate_key_metrics exTblNoId).length = exTblNoId.rows.length :=
  (C3_amended_singleton_groups exTblNoId rfl).1

/-- C4: a word-column cell is treated as produced iff it is non-null and
its value, stripped of surrounding whitespace and lowercased, equals the
literal "produces"; a cell that is not produced (such as "not yet")
yields no long-format record for that column. -/
theorem C4_produced_marker (tax : Taxonomy) (avail wcols : List String)
    (r : WideRow) (c : String) :
    (producedCell (r.cell c) = true ↔
      ∃ s, r.cell c = some s ∧ strLower (strip s) = "produces") ∧
    (producedCell (r.cell c) = false →
      ∀ rec ∈ rowRecords tax avail wcols r, rec.word_column ≠ c) := by
  constructor
  · rcases hv : r.cell c with _ | s <;> simp [producedCell]
  · intro hfalse rec hrec hcol
    have hspec := (rowRecords_spec tax avail wcols r rec hrec).2.1
    rw [hcol, hfalse] at hspec
    exact Bool.noConfusion hspec

/-- C4 witness: on the concrete row whose "dog" cell reads "not yet", the
only emitted record is the one for the produced "cat" cell, and it does
not stem from the "dog" column. -/
theorem C4_witness :
    producedCell (some "not yet") = false ∧ exRecCatOut.word_column ≠ "dog" :=
  ⟨by decide,
   (C4_produced_marker exTax ["subject_id"] ["dog", "cat"] exRowNotYet "dog").2
     (by decide) exRecCatOut (by decide)⟩

/-- C5: taxonomy resolution of a column label factors through lowercasing,
space/hyphen-to-underscore mapping and truncation at the first dot: any
two labels that agree after that normalisation resolve identically, for
every taxonomy; in particular "Mommy"/"mommy"/"MOMMY" resolve identically,
"ice-cream" and "ice_cream" resolve identically, and "chicken.animal"
resolves to the taxonomy entry of the reference word "chicken". -/
theorem C5_normalization_invariance (tax : Taxonomy) (l1 l2 : String)
    (h : base_word (normalizeLabel l1) = base_word (normalizeLabel l2)) :
    resolveColumn tax l1 = resolveColumn tax l2 ∧
    resolveColumn tax "Mommy" = resolveColumn tax "mommy" ∧
    resolveColumn tax "mommy" = resolveColumn tax "MOMMY" ∧
    resolveColumn tax "ice-cream" = resolveColumn tax "ice_cream" ∧
    resolveColumn tax "chicken.animal" = tax (normalizeLabel "chicken") := by
  refine ⟨congrArg tax h, ?_, ?_, ?_, ?_⟩ <;> exact congrArg tax (by decide)

/-- C5 witness: case-insensitive resolution on the concrete taxonomy. -/
theorem C5_witness :
    resolveColumn exTax "Mommy" = resolveColumn exTax "mommy" :=
  (C5_normalization_invariance exTax "Mommy" "mommy" (by decide)).1

/-- C6: in every row of the table returned by
`create_aggregated_by_section`, word_count equals the length of the words
list, and no two rows share the same grouping key. -/
theorem C6_word_count_key_unique (t : LongTable) :
    (∀ a ∈ create_aggregated_by_section t, a.word_count = a.words.length) ∧
    ((create_aggregated_by_section t).map AggRec.key).Nodup := by
  by_cases he : t.rows.isEmpty = true
  · simp [create_aggregated_by_section, he]
  · constructor
    · intro a ha
      rw [create_aggregated_by_section, if_neg he] at ha
      obtain ⟨k, _, rfl⟩ := List.mem_map.mp ha
      rfl
    · rw [create_aggregated_by_section, if_neg he, List.map_map]
      have hcomp : (AggRec.key ∘ fun k =>
          AggRec.mk k (aggWords t k) (aggWords t k).length) = id := rfl
      rw [hcomp, List.map_id]
      exact List.nodup_dedup _

/-- C6 witness: the invariant instantiated on the concrete aggregate row
of `exT6`. -/
theorem C6_witness :
    exAgg6.word_count = exAgg6.words.length ∧
    ((create_aggregated_by_section exT6).map AggRec.key).Nodup :=
  ⟨(C6_word_count_key_unique exT6).1 exAgg6 (by decide),
   (C6_word_count_key_unique exT6).2⟩

/-- C7: a produced word column whose base word has no taxonomy entry
contributes no record to the long-format output (the transformer, a total
function, completes normally), and every emitted record stems from a
column whose base word resolves in the taxonomy. -/
theorem C7_unmapped_word_dropped (tax : Taxonomy) (t : WideTable) (c : String)
    (hc : resolveColumn tax c = none) :
    (∀ rec ∈ (process_cdi_file tax t).rows, rec.word_column ≠ c) ∧
    (∀ rec ∈ (process_cdi_file tax t).rows,
      (resolveColumn tax rec.word_column).isSome = true) := by
  have hres : ∀ rec ∈ (process_cdi_file tax t).rows,
      (resolveColumn tax rec.word_column).isSome = true := by
    intro rec h
    obtain ⟨row, _, hmem⟩ := List.mem_flatMap.mp h
    have h3 := (rowRecords_spec tax _ _ row rec hmem).2.2
    rw [h3]
    rfl
  refine ⟨?_, hres⟩
  intro rec h hcol
  have h4 := hres rec h
  rw [hcol, hc] at h4
  exact Bool.noConfusion h4

/-- C7 witness: on the concrete wide table where "zebra" is produced but
unmapped, the only emitted record is the resolvable "dog" one. -/
theorem C7_witness :
    exProcDogRec.word_column ≠ "zebra" ∧
    (resolveColumn exTax exProcDogRec.word_column).isSome = true :=
  ⟨(C7_unmapped_word_dropped exTax exWT "zebra" (by decide)).1 exProcDogRec (by decide),
   (C7_unmapped_word_dropped exTax exWT "zebra" (by decide)).2 exProcDogRec (by decide)⟩

/-- C8: for any input column list, the word-column classification of the
transformer pass and the one of the metadata-payload pass inside
`calculate_key_metrics` coincide: both subtract the same exclusion list,
and for columns that are present, subtracting the available metadata
columns agrees with subtracting all metadata columns. -/
theorem C8_word_column_passes_agree (cols : List String) :
    word_columns cols = word_columns_metrics cols := by
  unfold word_columns word_columns_metrics
  refine List.filter_congr ?_
  intro c hc
  refine decide_eq_decide.mpr ?_
  rw [show exclude_cols_metrics = exclude_cols from rfl]
  simp only [List.mem_append, available_metadata, List.mem_filter,
    decide_eq_true_eq, not_or]
  constructor
  · rintro ⟨h1, h2⟩
    exact ⟨h1, fun hm => h2 ⟨hm, hc⟩⟩
  · rintro ⟨h1, h2⟩
    exact ⟨h1, fun hmf => h2 hmf.1⟩

/-- C9: `create_aggregated_by_section` silently drops every long-format
record whose grouping key has a null component: the word_count total over
the output equals the number of fully-keyed records, and as soon as one
record has a null key component the total is strictly below the number of
long-format records. -/
theorem C9_null_key_rows_dropped (t : LongTable) :
    sumWordCount (create_aggregated_by_section t) =
      (t.rows.filter (fun r => (aggKey t r).isSome)).length ∧
    ∀ r ∈ t.rows, aggKey t r = none →
      sumWordCount (create_aggregated_by_section t) < t.rows.length := by
  have hsum : sumWordCount (create_aggregated_by_section t) =
      (t.rows.filter (fun r => (aggKey t r).isSome)).length := by
    by_cases he : t.rows.isEmpty = true
    · have h0 : t.rows = [] := List.isEmpty_iff.mp he
      simp [create_aggregated_by_section, sumWordCount, h0]
    · rw [create_aggregated_by_section, if_neg he, sumWordCount, List.map_map]
      have hcomp : (AggRec.word_count ∘ fun k =>
          AggRec.mk k (aggWords t k) (aggWords t k).length) =
          fun k => ((aggPairs t).filter (fun p => decide (p.fst = k))).length := by
        funext k
        simp [Function.comp, aggWords]
      rw [hcomp, sum_group_lengths]
      exact length_filterMap_opt (aggKey t) (fun r k => (k, r)) t.rows
  refine ⟨hsum, ?_⟩
  intro r hr hnone
  rw [hsum]
  refine lt_of_le_of_ne (List.length_filter_le _ _) (fun hEq => ?_)
  have h2 := List.filter_length_eq_length.mp hEq r hr
  rw [hnone] at h2
  simp at h2

/-- C9 witness: on the concrete table with one null-keyed record the
word_count total is strictly below the record count. -/
theorem C9_witness :
    sumWordCount (create_aggregated_by_section exT9) < exT9.rows.length :=
  (C9_null_key_rows_dropped exT9).2 exRecNullSubj (by decide) (by decide)

/-- C10: when the long-format record set has no subject_id column, the
returned metrics table has no subject_id column either: the synthetic
grouping identifier is dropped by the final column reorder. -/
theorem C10_no_subject_id_column (t : LongTable) (h : t.hasSubjectId = false) :
    "subject_id" ∉ metricsFinalColumns t := by
  intro hmem
  rw [metricsFinalColumns] at hmem
  by_cases hg : (metricGroups t).isEmpty = true
  · rw [if_pos hg] at hmem
    exact List.not_mem_nil _ hmem
  · rw [if_neg hg] at hmem
    have h1 := (List.mem_filter.mp hmem).1
    rcases List.mem_append.mp h1 with h2 | h2
    · have h3 := subject_id_mem_avail t h2
      rw [h] at h3
      exact Bool.noConfusion h3
    · rw [metricValueCols] at h2
      exact absurd h2 (by decide)

/-- C10 witness: the concrete table without a subject_id column yields a
metrics table without a subject_id column. -/
theorem C10_witness : "subject_id" ∉ metricsFinalColumns exTblNoId :=
  C10_no_subject_id_column exTblNoId rfl

end CDI
